import Mathlib

/-!
Verification development for the tokenspy usage-accounting core.

The definitions below are a shallow embedding of the Python sources:
  src/tokenspy/tracker.py        (CallRecord, Tracker.record, SQLite round trip)
  src/tokenspy/profiler.py       (BudgetExceededError, _budget_check, _make_wrapper)
  src/tokenspy/providers/openai.py    (_OpenAIStreamWrapper, _record)
  src/tokenspy/providers/anthropic.py (_AnthropicStreamWrapper, _process_event, _finalize)

Monetary amounts and wall-clock values are modelled as exact rationals.
`pricing.calculate` is an external collaborator of the core (a pure function
`cost(model, input_tokens, output_tokens)`); it is passed around as an explicit
function argument `price`.
-/

namespace TokenSpy

/-- Model of `CallRecord` (tracker.py:18-37): one intercepted LLM API call. -/
structure CallRecord where
  function_name : String
  call_stack : List String
  model : String
  input_tokens : Nat
  output_tokens : Nat
  cost_usd : ℚ
  duration_ms : ℚ
  timestamp : ℚ
  provider : String := "unknown"
  session_id : Option String := none
  git_commit : Option String := none
deriving Repr, DecidableEq

/-- Model of the `total_tokens` property (tracker.py:35-37). -/
def CallRecord.total_tokens (r : CallRecord) : Nat :=
  r.input_tokens + r.output_tokens

/-- Python truthiness of the tracker's `_git_commit` field (`if self._git_commit`):
`None` and the empty string are falsy (tracker.py:63). -/
def gitTruthy : Option String → Bool
  | none => false
  | some s => s ≠ ""

/-- Git-commit stamping performed at the top of `Tracker.record`
(tracker.py:62-64): when the tracker has a truthy `_git_commit` and the
record's `git_commit` is `None`, the record's field is set in place;
otherwise the record is untouched. -/
def stampGit (git : Option String) (rec : CallRecord) : CallRecord :=
  if gitTruthy git ∧ rec.git_commit = none then { rec with git_commit := git } else rec

/-- The in-memory record sequence of a `Tracker` (tracker.py:51). -/
abbrev Ledger := List CallRecord

/-- Model of `Tracker.total_cost` (tracker.py:88-89). -/
def totalCost (l : Ledger) : ℚ :=
  (l.map CallRecord.cost_usd).sum

/-- Model of `BudgetExceededError` (profiler.py:37-49): carries the spent
amount, the budget ceiling, and the formatted message built by `__init__`. -/
structure BudgetExceededError where
  spent : ℚ
  budget : ℚ
  msg : String
deriving Repr, DecidableEq

/-- Outcome of invoking one post-record hook (tracker.py:72-76): it returns
normally, raises an ordinary `Exception` (swallowed by the dispatch loop), or
raises the fatal `BudgetExceededError`, a `BaseException` that the
`except Exception` guard does not match. -/
inductive HookOutcome where
  | ok
  | exc
  | fatal (e : BudgetExceededError)
deriving Repr, DecidableEq

/-- Whether a hook outcome is the fatal budget signal. -/
def HookOutcome.isFatal : HookOutcome → Bool
  | .fatal _ => true
  | _ => false

/-- Behaviour of a registered post-record hook, identified by a numeric id:
when invoked it may mutate the tracker's live observer list (e.g.
self-deregister) and then finishes with an outcome. -/
structure HookBehavior where
  mutate : List Nat → List Nat
  outcome : HookOutcome

/-- The mutable state of a `Tracker` relevant to `record`: the in-memory
record sequence and the `_post_record_hooks` list (hooks as ids, their
behaviour given by an environment `Nat → HookBehavior`). -/
structure TrackerState where
  records : Ledger
  hooks : List Nat

/-- One entry of the dispatch trace: which hook was invoked, and the record
sequence visible to it (what `records()` returns inside the hook). -/
structure InvocationLog where
  hookId : Nat
  recordsSeen : Ledger
deriving Repr, DecidableEq

/-- Result of running `Tracker.record`'s hook-dispatch loop. -/
structure DispatchResult where
  state : TrackerState
  fatalErr : Option BudgetExceededError
  trace : List InvocationLog

/-- Model of the dispatch loop of `Tracker.record` (tracker.py:72-76):
`for hook in list(self._post_record_hooks)` iterates a snapshot; each hook
runs (possibly mutating the live observer list), an ordinary `Exception` is
suppressed, and a `BudgetExceededError` propagates, aborting the rest. -/
def dispatch (env : Nat → HookBehavior) (snapshot : List Nat) (st : TrackerState) :
    DispatchResult :=
  match snapshot with
  | [] => ⟨st, none, []⟩
  | h :: rest =>
    let b := env h
    let log : InvocationLog := ⟨h, st.records⟩
    let st1 : TrackerState := { st with hooks := b.mutate st.hooks }
    match b.outcome with
    | .fatal e => ⟨st1, some e, [log]⟩
    | _ =>
      let r := dispatch env rest st1
      ⟨r.state, r.fatalErr, log :: r.trace⟩

/-- Model of `Tracker.record` (tracker.py:61-76): stamp the git commit,
append the record to the in-memory sequence, then invoke the hooks over a
snapshot of the observer list taken before iterating. -/
def recordOp (env : Nat → HookBehavior) (st : TrackerState) (git : Option String)
    (rec : CallRecord) : DispatchResult :=
  let stamped := stampGit git rec
  let st1 : TrackerState := { st with records := st.records ++ [stamped] }
  dispatch env st1.hooks st1

end TokenSpy

namespace TokenSpy

/-- Four decimal digits of `k % 10000`, zero padded: the fractional part of
Python's `f"{x:.4f}"` formatting. -/
def pad4 (k : Nat) : String :=
  String.mk [Nat.digitChar (k / 1000 % 10), Nat.digitChar (k / 100 % 10),
             Nat.digitChar (k / 10 % 10), Nat.digitChar (k % 10)]

/-- The value scaled to ten-thousandths and rounded to the nearest integer,
as used by four-decimal fixed-point formatting. -/
def usdScaled (q : ℚ) : Nat :=
  (round (|q| * 10000)).toNat

/-- Model of Python's `f"{q:.4f}"`: fixed-point rendering with exactly four
digits after the decimal point. -/
def fmt4 (q : ℚ) : String :=
  (if q < 0 then "-" else "") ++ toString (usdScaled q / 10000) ++ "." ++ pad4 (usdScaled q % 10000)

/-- The message built by `BudgetExceededError.__init__` (profiler.py:47-49). -/
def budgetErrorMsg (spent budget : ℚ) : String :=
  "tokenspy budget exceeded: spent $" ++ fmt4 spent ++ " of $" ++ fmt4 budget ++ " budget"

/-- `BudgetExceededError(spent, budget)` as constructed in profiler.py:44-49. -/
def mkBudgetError (spent budget : ℚ) : BudgetExceededError :=
  ⟨spent, budget, budgetErrorMsg spent budget⟩

/-- The `on_exceeded` policy of `profile` (profiler.py:58): "warn" or "raise". -/
inductive Policy where
  | warn
  | raiseE
deriving Repr, DecidableEq

/-- The warning message built by `_budget_check` (profiler.py:110-113). -/
def warnMsg (fn : String) (spent budget : ℚ) : String :=
  "[tokenspy] Budget exceeded in " ++ fn ++ ": $" ++ fmt4 spent ++ " > $" ++ fmt4 budget

/-- What one invocation of `_budget_check` does: nothing, emit a non-fatal
advisory via `warnings.warn(msg)`, or raise `BudgetExceededError`. -/
inductive CheckResult where
  | pass
  | warned (msg : String)
  | raised (e : BudgetExceededError)
deriving Repr, DecidableEq

/-- Model of `_budget_check` (profiler.py:107-117): `spent` is the tracker's
total cost minus the captured baseline; it fires exactly when
`spent > budget_usd`; under "raise" it raises `BudgetExceededError(spent,
budget_usd)`, under "warn" it emits the advisory message and returns. -/
def budget_check (total baseline budget_usd : ℚ) (fn : String) (policy : Policy) :
    CheckResult :=
  let spent := total - baseline
  if spent > budget_usd then
    match policy with
    | .raiseE => .raised (mkBudgetError spent budget_usd)
    | .warn => .warned (warnMsg fn spent budget_usd)
  else .pass

/-- Exit status of the wrapped function's body inside `_make_wrapper`
(profiler.py:122-123): normal return, an ordinary exception, or the fatal
budget signal. -/
inductive Outcome (α : Type) where
  | ok (a : α)
  | error
  | budget (e : BudgetExceededError)

/-- Model of the guard lifecycle in `_make_wrapper` (profiler.py:102-130) for
a budget-guarded invocation: the fresh check closure `g` is appended to the
observer list, the body runs (it may transform the observer list and exits
with some outcome), and the `finally` block removes `g`, tolerating "already
removed" (`except ValueError: pass`), i.e. `List.erase`. The `finally` runs
on every exit path and does not alter the body's outcome. -/
def runGuardedWrapper {α : Type} (g : Nat) (hooks : List Nat)
    (body : List Nat → Outcome α × List Nat) : Outcome α × List Nat :=
  let r := body (hooks ++ [g])
  (r.1, r.2.erase g)

end TokenSpy

namespace TokenSpy

/-- Usage object of an OpenAI chunk (providers/openai.py:195-196): the
attributes `prompt_tokens` / `completion_tokens` may be absent or `None`
(`getattr(usage, ..., 0) or 0` maps both to 0). -/
structure OpenAIUsage where
  prompt_tokens : Option Nat := none
  completion_tokens : Option Nat := none
deriving Repr, DecidableEq

/-- An OpenAI streaming chunk as `_record` inspects it: only its (possibly
`None`) `usage` attribute matters (providers/openai.py:191). -/
structure OpenAIChunk where
  usage : Option OpenAIUsage := none
deriving Repr, DecidableEq

/-- The `CallRecord` that `_record` (providers/openai.py:178-213) builds from
a usage object. -/
def openaiMkRecord (price : String → Nat → Nat → ℚ) (d t : ℚ) (model : String)
    (fn : List String) (u : OpenAIUsage) : CallRecord :=
  let it := u.prompt_tokens.getD 0
  let ot := u.completion_tokens.getD 0
  { function_name := fn.headD "<unknown>"
    call_stack := fn
    model := model
    input_tokens := it
    output_tokens := ot
    cost_usd := price model it ot
    duration_ms := d
    timestamp := t
    provider := "openai" }

/-- Model of `_record` (providers/openai.py:178-213) applied to one response
object: if `response.usage` is `None` nothing is recorded, otherwise one
`CallRecord` is appended to the ledger. -/
def openaiRecordChunk (price : String → Nat → Nat → ℚ) (d t : ℚ) (model : String)
    (fn : List String) (c : OpenAIChunk) (ledger : Ledger) : Ledger :=
  match c.usage with
  | none => ledger
  | some u => ledger ++ [openaiMkRecord price d t model fn u]

/-- Model of `_OpenAIStreamWrapper.__iter__` run to exhaustion
(providers/openai.py:45-54): `last_chunk` ends up as the final element of the
stream; when the stream is non-empty, `_record` is called on that final
chunk. -/
def openaiConsumeAll (price : String → Nat → Nat → ℚ) (d t : ℚ) (model : String)
    (fn : List String) (chunks : List OpenAIChunk) (ledger : Ledger) : Ledger :=
  match chunks.getLast? with
  | none => ledger
  | some c => openaiRecordChunk price d t model fn c ledger

/-- Model of pulling `k` elements from `_OpenAIStreamWrapper.__iter__` and
then abandoning it: the code after the `for` loop runs only when the
underlying stream was exhausted (`k ≥ chunks.length`); an abandoned generator
never reaches the `_record` call (providers/openai.py:45-54). -/
def openaiConsume (price : String → Nat → Nat → ℚ) (d t : ℚ) (model : String)
    (fn : List String) (chunks : List OpenAIChunk) (k : Nat) (ledger : Ledger) : Ledger :=
  if chunks.length ≤ k then openaiConsumeAll price d t model fn chunks ledger else ledger

/-- Model of `_OpenAIStreamWrapper.__exit__` (providers/openai.py:74-77): it
only delegates to the underlying stream and never touches the tracker. -/
def openaiExit (ledger : Ledger) : Ledger :=
  ledger

/-- Usage attributes seen on Anthropic events (providers/anthropic.py:63,67):
either may be absent or falsy, mapped to 0 by `getattr(..., 0) or 0`. -/
structure AnthropicUsage where
  input_tokens : Option Nat := none
  output_tokens : Option Nat := none
deriving Repr, DecidableEq

/-- The `message` attribute of a `message_start` event
(providers/anthropic.py:59-63). -/
structure AnthropicMessage where
  usage : Option AnthropicUsage := none
deriving Repr, DecidableEq

/-- An Anthropic streaming event as `_process_event` inspects it: its `type`
tag, its optional `message` (for `message_start`), and its optional `usage`
(for `message_delta`). -/
structure AnthropicEvent where
  type : Option String := none
  message : Option AnthropicMessage := none
  usage : Option AnthropicUsage := none
deriving Repr, DecidableEq

/-- Counter state of `_AnthropicStreamWrapper` (providers/anthropic.py:46-48):
running token counters seeded at zero and the single-shot `_recorded` flag. -/
structure AnthropicState where
  input_tokens : Nat := 0
  output_tokens : Nat := 0
  recorded : Bool := false
deriving Repr, DecidableEq

/-- Model of `_AnthropicStreamWrapper._process_event`
(providers/anthropic.py:56-67): `message_start` overwrites the input counter
from `event.message.usage.input_tokens`; `message_delta` overwrites the
output counter from `event.usage.output_tokens` (cumulative, latest wins);
every other event type is ignored. -/
def processEvent (st : AnthropicState) (e : AnthropicEvent) : AnthropicState :=
  if e.type = some "message_start" then
    match e.message with
    | some m =>
      match m.usage with
      | some u => { st with input_tokens := u.input_tokens.getD 0 }
      | none => st
    | none => st
  else if e.type = some "message_delta" then
    match e.usage with
    | some u => { st with output_tokens := u.output_tokens.getD 0 }
    | none => st
  else st

/-- The `CallRecord` built by `_AnthropicStreamWrapper._finalize` from the
accumulated counters (providers/anthropic.py:77-92). -/
def anthropicMkRecord (price : String → Nat → Nat → ℚ) (d t : ℚ) (model : String)
    (fn : List String) (st : AnthropicState) : CallRecord :=
  { function_name := fn.headD "<unknown>"
    call_stack := fn
    model := model
    input_tokens := st.input_tokens
    output_tokens := st.output_tokens
    cost_usd := price model st.input_tokens st.output_tokens
    duration_ms := d
    timestamp := t
    provider := "anthropic" }

/-- Model of `_AnthropicStreamWrapper._finalize` (providers/anthropic.py:69-94):
guarded by the single-shot `_recorded` flag; on first call it unconditionally
records one `CallRecord` built from the current counters. -/
def anthropicFinalize (price : String → Nat → Nat → ℚ) (d t : ℚ) (model : String)
    (fn : List String) (st : AnthropicState) (ledger : Ledger) :
    AnthropicState × Ledger :=
  if st.recorded then (st, ledger)
  else
    ({ st with recorded := true },
     ledger ++ [anthropicMkRecord price d t model fn st])

/-- Model of `_AnthropicStreamWrapper.__iter__` run to exhaustion
(providers/anthropic.py:50-54): every event is processed, then `_finalize`
runs. -/
def anthropicConsumeAll (price : String → Nat → Nat → ℚ) (d t : ℚ) (model : String)
    (fn : List String) (events : List AnthropicEvent) (st : AnthropicState)
    (ledger : Ledger) : AnthropicState × Ledger :=
  anthropicFinalize price d t model fn (events.foldl processEvent st) ledger

/-- Model of pulling `k` elements from `_AnthropicStreamWrapper.__iter__` and
abandoning it: the processed prefix updates the counters, but the `_finalize`
call after the loop is never reached by an abandoned generator. -/
def anthropicIterPartial (events : List AnthropicEvent) (k : Nat)
    (st : AnthropicState) (ledger : Ledger) : AnthropicState × Ledger :=
  ((events.take k).foldl processEvent st, ledger)

/-- Model of `_AnthropicStreamWrapper.__exit__` (providers/anthropic.py:101-105):
it calls `_finalize` before delegating to the underlying stream. -/
def anthropicExit (price : String → Nat → Nat → ℚ) (d t : ℚ) (model : String)
    (fn : List String) (st : AnthropicState) (ledger : Ledger) :
    AnthropicState × Ledger :=
  anthropicFinalize price d t model fn st ledger

end TokenSpy

namespace TokenSpy

/-- One row of the `llm_calls` SQLite table in column order
(tracker.py:143-157, 166-196). The `call_stack` column holds serialized JSON;
`none` models a cell whose deserialization (`json.loads`) fails, which is the
per-row failure that `load_from_db` skips. -/
structure DbRow where
  function_name : String
  call_stack_json : Option (List String)
  model : String
  provider : String
  input_tokens : Nat
  output_tokens : Nat
  cost_usd : ℚ
  duration_ms : ℚ
  timestamp : ℚ
  session_id : Option String
  git_commit : Option String
deriving Repr, DecidableEq

/-- Model of `Tracker._save_to_db` (tracker.py:166-196): the inserted row,
with `call_stack` serialized by `json.dumps` (faithful for string lists). -/
def saveRow (rec : CallRecord) : DbRow :=
  { function_name := rec.function_name
    call_stack_json := some rec.call_stack
    model := rec.model
    provider := rec.provider
    input_tokens := rec.input_tokens
    output_tokens := rec.output_tokens
    cost_usd := rec.cost_usd
    duration_ms := rec.duration_ms
    timestamp := rec.timestamp
    session_id := rec.session_id
    git_commit := rec.git_commit }

/-- Per-row reconstruction inside `load_from_db` (tracker.py:216-234): the
`CallRecord(...)` constructor call, whose failure (corrupt `call_stack` JSON)
makes the row get skipped via `except Exception: continue`. -/
def parseRow (row : DbRow) : Option CallRecord :=
  match row.call_stack_json with
  | none => none
  | some stack =>
    some
      { function_name := row.function_name
        call_stack := stack
        model := row.model
        provider := row.provider
        input_tokens := row.input_tokens
        output_tokens := row.output_tokens
        cost_usd := row.cost_usd
        duration_ms := row.duration_ms
        timestamp := row.timestamp
        session_id := row.session_id
        git_commit := row.git_commit }

/-- A row whose `call_stack` cell no longer deserializes: the stored copy of
`rec` with that one cell corrupted (other columns, in particular the
timestamp, intact). -/
def corruptRow (rec : CallRecord) : DbRow :=
  { saveRow rec with call_stack_json := none }

/-- Insertion step of sorting by the `timestamp` column. -/
def insertRow (r : DbRow) : List DbRow → List DbRow
  | [] => [r]
  | x :: xs => if x.timestamp ≤ r.timestamp then x :: insertRow r xs else r :: x :: xs

/-- Model of the `ORDER BY timestamp` clause of the load query
(tracker.py:206-210): the rows sorted by ascending timestamp. -/
def sortRows : List DbRow → List DbRow
  | [] => []
  | x :: xs => insertRow x (sortRows xs)

/-- Model of `Tracker.load_from_db` (tracker.py:198-235): read all rows in
ascending timestamp order and reconstruct each, skipping rows whose
reconstruction fails. -/
def loadFromDb (rows : List DbRow) : List CallRecord :=
  (sortRows rows).filterMap parseRow

/-- A zero price table, used to instantiate the external `pricing.calculate`
collaborator at concrete inputs. -/
def price0 : String → Nat → Nat → ℚ :=
  fun _ _ _ => 0

/-- A chunk carrying usage `(input=100, output=50)`. -/
def chunkWithUsage : OpenAIChunk :=
  { usage := some { prompt_tokens := some 100, completion_tokens := some 50 } }

/-- A chunk carrying no usage (`usage=None`). -/
def chunkNoUsage : OpenAIChunk :=
  { usage := none }

/-- A stream whose usage-bearing chunk is followed by one trailing usage-less
chunk. -/
def cexC1chunks : List OpenAIChunk :=
  [chunkWithUsage, chunkNoUsage]

/-- An Anthropic event sequence in which no element carries any usage
information (a content delta and the terminal `message_stop`). -/
def cexC2events : List AnthropicEvent :=
  [{ type := some "content_block_delta" }, { type := some "message_stop" }]

/-- An OpenAI stream: a usage-bearing first chunk, then another chunk; the
consumer will abandon after the first. -/
def cexC3chunks : List OpenAIChunk :=
  [chunkWithUsage, chunkNoUsage]

/-- Whether an Anthropic event carries no usage information at all (neither a
`message.usage` nor a top-level `usage` attribute with content). -/
def eventUsageFree (e : AnthropicEvent) : Bool :=
  (match e.message with
   | some m => m.usage.isNone
   | none => true) && e.usage.isNone

/-- A `message_start` event reporting `input_tokens=200`. -/
def evStart200 : AnthropicEvent :=
  { type := some "message_start"
    message := some { usage := some { input_tokens := some 200 } } }

/-- A concrete recorded call, used to instantiate theorems. -/
def rec0 : CallRecord :=
  { function_name := "f", call_stack := ["f"], model := "m", input_tokens := 1,
    output_tokens := 2, cost_usd := 0, duration_ms := 0, timestamp := 0,
    provider := "openai" }

/-- A concrete recorded call with a chosen timestamp, for round-trip tests. -/
def recT (ts : ℚ) : CallRecord :=
  { function_name := "f", call_stack := ["f"], model := "m", input_tokens := 1,
    output_tokens := 2, cost_usd := 3, duration_ms := 4, timestamp := ts,
    provider := "openai" }

/-- A hook environment in which hook 1 raises the fatal budget signal and all
other hooks raise an ordinary exception. -/
def envC5 : Nat → HookBehavior :=
  fun i =>
    if i = 1 then { mutate := fun l => l, outcome := .fatal ⟨1, 0, ""⟩ }
    else { mutate := fun l => l, outcome := .exc }

/-- A hook environment in which hook 0 self-deregisters (removes itself from
the live observer list) and returns normally. -/
def envC8 : Nat → HookBehavior :=
  fun _ => { mutate := fun l => l.erase 0, outcome := .ok }

end TokenSpy

namespace TokenSpy

/-- The zero-padded fractional part always has exactly four characters. -/
theorem pad4_length (k : Nat) : (pad4 k).length = 4 :=
  rfl

/-- Any `fmt4` rendering splits around a decimal point with exactly four
digits after it. -/
theorem fmt4_four_decimals (q : ℚ) :
    ∃ w f, fmt4 q = w ++ "." ++ f ∧ f.length = 4 :=
  ⟨(if q < 0 then "-" else "") ++ toString (usdScaled q / 10000),
   pad4 (usdScaled q % 10000), rfl, pad4_length _⟩

/-- Unfolding of `dispatch` when the head hook raises the fatal signal. -/
theorem dispatch_cons_fatal (env : Nat → HookBehavior) (h : Nat)
    (rest : List Nat) (st : TrackerState) (e : BudgetExceededError)
    (ho : (env h).outcome = .fatal e) :
    dispatch env (h :: rest) st
      = ⟨{ st with hooks := (env h).mutate st.hooks }, some e, [⟨h, st.records⟩]⟩ := by
  simp [dispatch, ho]

/-- Unfolding of `dispatch` when the head hook does not raise the fatal
signal (it returns or raises a swallowed ordinary exception). -/
theorem dispatch_cons_nonfatal (env : Nat → HookBehavior) (h : Nat)
    (rest : List Nat) (st : TrackerState)
    (ho : (env h).outcome.isFatal = false) :
    dispatch env (h :: rest) st
      = ⟨(dispatch env rest { st with hooks := (env h).mutate st.hooks }).state,
         (dispatch env rest { st with hooks := (env h).mutate st.hooks }).fatalErr,
         ⟨h, st.records⟩
           :: (dispatch env rest { st with hooks := (env h).mutate st.hooks }).trace⟩ := by
  cases hoc : (env h).outcome with
  | fatal e => rw [hoc] at ho; simp [HookOutcome.isFatal] at ho
  | ok => simp [dispatch, hoc]
  | exc => simp [dispatch, hoc]

/-- Hook dispatch never changes the in-memory record sequence. -/
theorem dispatch_records (env : Nat → HookBehavior) (snap : List Nat)
    (st : TrackerState) : (dispatch env snap st).state.records = st.records := by
  induction snap generalizing st with
  | nil => rfl
  | cons h rest ih =>
    cases ho : (env h).outcome with
    | fatal e => rw [dispatch_cons_fatal env h rest st e ho]
    | ok => rw [dispatch_cons_nonfatal env h rest st (by rw [ho]; rfl)]; exact ih _
    | exc => rw [dispatch_cons_nonfatal env h rest st (by rw [ho]; rfl)]; exact ih _

/-- Every hook invocation during dispatch sees exactly the record sequence
the dispatch started from. -/
theorem dispatch_seen (env : Nat → HookBehavior) (snap : List Nat)
    (st : TrackerState) :
    ∀ log ∈ (dispatch env snap st).trace, log.recordsSeen = st.records := by
  induction snap generalizing st with
  | nil => intro log hlog; simp [dispatch] at hlog
  | cons h rest ih =>
    intro log hlog
    cases ho : (env h).outcome with
    | fatal e =>
      rw [dispatch_cons_fatal env h rest st e ho] at hlog
      simp at hlog; subst hlog; rfl
    | ok =>
      rw [dispatch_cons_nonfatal env h rest st (by rw [ho]; rfl)] at hlog
      simp at hlog
      rcases hlog with hlog | hlog
      · subst hlog; rfl
      · exact ih { st with hooks := (env h).mutate st.hooks } log hlog
    | exc =>
      rw [dispatch_cons_nonfatal env h rest st (by rw [ho]; rfl)] at hlog
      simp at hlog
      rcases hlog with hlog | hlog
      · subst hlog; rfl
      · exact ih { st with hooks := (env h).mutate st.hooks } log hlog

/-- When no hook in the snapshot raises the fatal signal, dispatch finishes
with no error and every snapshot hook is invoked exactly once, in order,
regardless of observer-list mutations. -/
theorem dispatch_no_fatal (env : Nat → HookBehavior) (snap : List Nat)
    (st : TrackerState) (h : ∀ i ∈ snap, (env i).outcome.isFatal = false) :
    (dispatch env snap st).fatalErr = none
    ∧ (dispatch env snap st).trace.map InvocationLog.hookId = snap := by
  induction snap generalizing st with
  | nil => exact ⟨rfl, rfl⟩
  | cons hd rest ih =>
    have hhd := h hd (by simp)
    have hrest : ∀ i ∈ rest, (env i).outcome.isFatal = false :=
      fun i hi => h i (by simp [hi])
    rw [dispatch_cons_nonfatal env hd rest st hhd]
    have := ih { st with hooks := (env hd).mutate st.hooks } hrest
    simpa using this

/-- When the snapshot splits as `pre ++ h :: post` with every hook of `pre`
non-fatal and `h` raising the fatal signal, dispatch propagates that error
and the trace stops right after `h`: the hooks of `post` are never invoked. -/
theorem dispatch_fatal (env : Nat → HookBehavior) (pre : List Nat) (h : Nat)
    (post : List Nat) (e : BudgetExceededError) (st : TrackerState)
    (hpre : ∀ i ∈ pre, (env i).outcome.isFatal = false)
    (hh : (env h).outcome = .fatal e) :
    (dispatch env (pre ++ h :: post) st).fatalErr = some e
    ∧ (dispatch env (pre ++ h :: post) st).trace.map InvocationLog.hookId
        = pre ++ [h] := by
  induction pre generalizing st with
  | nil =>
    rw [List.nil_append, dispatch_cons_fatal env h post st e hh]
    exact ⟨rfl, rfl⟩
  | cons hd rest ih =>
    have hhd := hpre hd (by simp)
    have hrest : ∀ i ∈ rest, (env i).outcome.isFatal = false :=
      fun i hi => hpre i (by simp [hi])
    rw [List.cons_append, dispatch_cons_nonfatal env hd (rest ++ h :: post) st hhd]
    have := ih { st with hooks := (env hd).mutate st.hooks } hrest
    simpa using this

end TokenSpy

namespace TokenSpy

/-- C4: invoking the typed-event accumulator's finalize step twice in a row
appends exactly one record to the ledger, never two; the second invocation is
a no-op because of the single-shot `_recorded` flag. -/
theorem C4_finalize_idempotent (price : String → Nat → Nat → ℚ) (d t : ℚ)
    (model : String) (fn : List String) (st : AnthropicState) (ledger : Ledger) :
    anthropicFinalize price d t model fn
        (anthropicFinalize price d t model fn st ledger).1
        (anthropicFinalize price d t model fn st ledger).2
      = anthropicFinalize price d t model fn st ledger
    ∧ (st.recorded = false →
        (anthropicFinalize price d t model fn st ledger).2.length
          = ledger.length + 1) := by
  by_cases hr : st.recorded
  · constructor
    · simp [anthropicFinalize, hr]
    · intro hfalse; rw [hr] at hfalse; cases hfalse
  · constructor
    · simp [anthropicFinalize, hr]
    · intro _; simp [anthropicFinalize, hr]

/-- Witness for C4 at a fresh accumulator state. -/
theorem C4_finalize_idempotent_witness :
    (anthropicFinalize price0 0 0 "m" ["f"] ⟨0, 0, false⟩ []).2.length = 0 + 1 :=
  (C4_finalize_idempotent price0 0 0 "m" ["f"] ⟨0, 0, false⟩ []).2 rfl

/-- C6: the budget check fires exactly when `spent = total - baseline` is
strictly greater than the ceiling; under "raise" it raises
`BudgetExceededError` carrying `(spent, ceiling)` with a message stating both
amounts to four decimal places; under "warn" it emits a non-fatal advisory
carrying the same two numbers and never raises. -/
theorem C6_budget_check_fires (total baseline budget_usd : ℚ) (fn : String) :
    (∀ p, budget_check total baseline budget_usd fn p = .pass
        ↔ ¬ total - baseline > budget_usd)
    ∧ (total - baseline > budget_usd →
        budget_check total baseline budget_usd fn .raiseE
          = .raised (mkBudgetError (total - baseline) budget_usd))
    ∧ (total - baseline > budget_usd →
        budget_check total baseline budget_usd fn .warn
          = .warned (warnMsg fn (total - baseline) budget_usd))
    ∧ (∀ e, budget_check total baseline budget_usd fn .warn ≠ .raised e)
    ∧ mkBudgetError (total - baseline) budget_usd
        = ⟨total - baseline, budget_usd, budgetErrorMsg (total - baseline) budget_usd⟩
    ∧ (∃ w f, fmt4 (total - baseline) = w ++ "." ++ f ∧ f.length = 4)
    ∧ (∃ w f, fmt4 budget_usd = w ++ "." ++ f ∧ f.length = 4) := by
  by_cases hs : total - baseline > budget_usd
  · refine ⟨?_, fun _ => ?_, fun _ => ?_, ?_, rfl, fmt4_four_decimals _, fmt4_four_decimals _⟩
    · intro p; cases p <;> simp [budget_check, hs]
    · simp [budget_check, hs]
    · simp [budget_check, hs]
    · intro e; simp [budget_check, hs]
  · refine ⟨?_, fun h => absurd h hs, fun h => absurd h hs, ?_, rfl,
      fmt4_four_decimals _, fmt4_four_decimals _⟩
    · intro p; cases p <;> simp [budget_check, hs]
    · intro e; simp [budget_check, hs]

/-- Witness for C6: with total cost 5, baseline 0 and ceiling 1 the check
fires, raising under "raise" and warning under "warn"; at spent = ceiling it
does not fire. -/
theorem C6_budget_check_fires_witness :
    budget_check 5 0 1 "f" .raiseE = .raised (mkBudgetError (5 - 0) 1)
    ∧ budget_check 5 0 1 "f" .warn = .warned (warnMsg "f" (5 - 0) 1)
    ∧ budget_check 1 0 1 "f" .raiseE = .pass :=
  ⟨(C6_budget_check_fires 5 0 1 "f").2.1 (by norm_num),
   (C6_budget_check_fires 5 0 1 "f").2.2.1 (by norm_num),
   ((C6_budget_check_fires 1 0 1 "f").1 .raiseE).mpr (by norm_num)⟩

/-- C7: for a budget-guarded unit of work, on every exit path (normal return,
ordinary exception, or the fatal budget signal) the `finally` block removes
the guard from the observer list, tolerating "already removed" as a no-op;
afterwards the observer list no longer contains the guard, and the body's
exit outcome passes through untouched. -/
theorem C7_guard_removed {α : Type} (g : Nat) (hooks : List Nat)
    (body : List Nat → Outcome α × List Nat)
    (hfresh : g ∉ hooks)
    (hnodup : ∀ l, ((body l).2).count g ≤ l.count g) :
    g ∉ (runGuardedWrapper g hooks body).2
    ∧ (runGuardedWrapper g hooks body).1 = (body (hooks ++ [g])).1
    ∧ (g ∉ (body (hooks ++ [g])).2 →
        (runGuardedWrapper g hooks body).2 = (body (hooks ++ [g])).2) := by
  have hcount : (hooks ++ [g]).count g = 1 := by
    simp [List.count_append, List.count_eq_zero_of_not_mem hfresh]
  have hbody : ((body (hooks ++ [g])).2).count g ≤ 1 := by
    have := hnodup (hooks ++ [g]); rwa [hcount] at this
  refine ⟨?_, rfl, fun habs => ?_⟩
  · have : ((body (hooks ++ [g])).2.erase g).count g = 0 := by
      rw [List.count_erase_self]; omega
    exact List.count_eq_zero.mp this
  · show (body (hooks ++ [g])).2.erase g = (body (hooks ++ [g])).2
    exact List.erase_of_not_mem habs

/-- Witness for C7 with an identity body. -/
theorem C7_guard_removed_witness :
    (0 : Nat) ∉ (runGuardedWrapper 0 [] (fun l => (Outcome.ok (0 : Nat), l))).2 :=
  (C7_guard_removed 0 [] (fun l => (Outcome.ok 0, l)) (by simp)
    (fun _ => le_refl _)).1

/-- C10: `Tracker.record` appends to the in-memory sequence exactly the
caller's record after in-place git stamping: `git_commit` is set precisely
when the tracker has a truthy configured commit and the record's field is
`None`, and every other field of the record is left unchanged. -/
theorem C10_record_mutates_git_only (env : Nat → HookBehavior)
    (st : TrackerState) (git : Option String) (rec : CallRecord) :
    (recordOp env st git rec).state.records = st.records ++ [stampGit git rec]
    ∧ (stampGit git rec).git_commit
        = (if gitTruthy git ∧ rec.git_commit = none then git else rec.git_commit)
    ∧ (stampGit git rec).function_name = rec.function_name
    ∧ (stampGit git rec).call_stack = rec.call_stack
    ∧ (stampGit git rec).model = rec.model
    ∧ (stampGit git rec).input_tokens = rec.input_tokens
    ∧ (stampGit git rec).output_tokens = rec.output_tokens
    ∧ (stampGit git rec).cost_usd = rec.cost_usd
    ∧ (stampGit git rec).duration_ms = rec.duration_ms
    ∧ (stampGit git rec).timestamp = rec.timestamp
    ∧ (stampGit git rec).provider = rec.provider
    ∧ (stampGit git rec).session_id = rec.session_id := by
  refine ⟨?_, ?_, ?_, ?_, ?_, ?_, ?_, ?_, ?_, ?_, ?_, ?_⟩
  · simpa [recordOp] using
      dispatch_records env st.hooks { st with records := st.records ++ [stampGit git rec] }
  all_goals unfold stampGit; split <;> rfl

end TokenSpy

namespace TokenSpy

/-- C5: during `Tracker.record`'s observer dispatch, observers raising
ordinary recoverable failures are caught and discarded — every registered
observer still runs and the caller sees no error — while an observer raising
the fatal `BudgetExceededError` is not caught: the error propagates to the
caller of `record` and the remaining observer invocations are aborted. -/
theorem C5_dispatch_error_taxonomy (env : Nat → HookBehavior)
    (st : TrackerState) (git : Option String) (rec : CallRecord) :
    ((∀ i ∈ st.hooks, (env i).outcome.isFatal = false) →
      (recordOp env st git rec).fatalErr = none
      ∧ (recordOp env st git rec).trace.map InvocationLog.hookId = st.hooks)
    ∧ (∀ pre h post e, st.hooks = pre ++ h :: post →
        (∀ i ∈ pre, (env i).outcome.isFatal = false) →
        (env h).outcome = .fatal e →
        (recordOp env st git rec).fatalErr = some e
        ∧ (recordOp env st git rec).trace.map InvocationLog.hookId = pre ++ [h]) := by
  constructor
  · intro hall
    simpa [recordOp] using
      dispatch_no_fatal env st.hooks
        { st with records := st.records ++ [stampGit git rec] } hall
  · intro pre h post e hsplit hpre hh
    have := dispatch_fatal env pre h post e
      ⟨st.records ++ [stampGit git rec], pre ++ h :: post⟩ hpre hh
    constructor
    · show (dispatch env st.hooks _).fatalErr = some e
      rw [hsplit]; exact this.1
    · show (dispatch env st.hooks _).trace.map InvocationLog.hookId = pre ++ [h]
      rw [hsplit]; exact this.2

/-- Witness for C5: with hooks `[0, 1, 2]` where hook 0 raises an ordinary
exception and hook 1 raises the fatal signal, `record` propagates the fatal
error and hook 2 is never invoked. -/
theorem C5_dispatch_error_taxonomy_witness :
    (recordOp envC5 ⟨[], [0, 1, 2]⟩ none rec0).fatalErr = some ⟨1, 0, ""⟩
    ∧ (recordOp envC5 ⟨[], [0, 1, 2]⟩ none rec0).trace.map InvocationLog.hookId
        = [0] ++ [1] :=
  (C5_dispatch_error_taxonomy envC5 ⟨[], [0, 1, 2]⟩ none rec0).2
    [0] 1 [2] ⟨1, 0, ""⟩ rfl (by decide) rfl

/-- C8: during `Tracker.record` the record is appended before any observer is
invoked — each observer sees the record sequence with the triggering record
already present, so `total_cost()` computed inside an observer includes that
record's cost — and the observer list is snapshotted before iterating, so
list mutations by observers cannot skip or duplicate notifications within the
same `record` call. -/
theorem C8_append_before_notify (env : Nat → HookBehavior) (st : TrackerState)
    (git : Option String) (rec : CallRecord) :
    (∀ log ∈ (recordOp env st git rec).trace,
        log.recordsSeen = st.records ++ [stampGit git rec]
        ∧ totalCost log.recordsSeen
            = totalCost st.records + (stampGit git rec).cost_usd)
    ∧ ((∀ i ∈ st.hooks, (env i).outcome.isFatal = false) →
        (recordOp env st git rec).trace.map InvocationLog.hookId = st.hooks) := by
  constructor
  · intro log hlog
    have hseen :=
      dispatch_seen env st.hooks
        { st with records := st.records ++ [stampGit git rec] } log hlog
    refine ⟨hseen, ?_⟩
    rw [hseen]
    simp [totalCost]
  · intro hall
    simpa [recordOp] using
      (dispatch_no_fatal env st.hooks
        { st with records := st.records ++ [stampGit git rec] } hall).2

/-- Witness for C8: a self-deregistering observer is still notified exactly
once and sees the record sequence containing the triggering record. -/
theorem C8_append_before_notify_witness :
    (recordOp envC8 ⟨[], [0]⟩ none rec0).trace.map InvocationLog.hookId = [0] :=
  (C8_append_before_notify envC8 ⟨[], [0]⟩ none rec0).2 (by decide)

end TokenSpy

namespace TokenSpy

/-- An event carrying no usage information leaves the accumulator counters
untouched. -/
theorem processEvent_usage_free (st : AnthropicState) (e : AnthropicEvent)
    (h : eventUsageFree e = true) : processEvent st e = st := by
  rcases e with ⟨ty, msg, us⟩
  rw [eventUsageFree, Bool.and_eq_true] at h
  obtain ⟨h1, h2⟩ := h
  rw [Option.isNone_iff_eq_none] at h2
  subst h2
  rcases msg with _ | mu
  · unfold processEvent
    simp
  · simp only [Option.isNone_iff_eq_none] at h1
    unfold processEvent
    simp [h1]

/-- A usage-free event sequence leaves the accumulator state unchanged. -/
theorem foldl_usage_free (events : List AnthropicEvent) (st : AnthropicState)
    (h : ∀ e ∈ events, eventUsageFree e = true) :
    events.foldl processEvent st = st := by
  induction events generalizing st with
  | nil => rfl
  | cons e rest ih =>
    rw [List.foldl_cons, processEvent_usage_free st e (h e (by simp))]
    exact ih st (fun x hx => h x (by simp [hx]))

/-- Event processing never touches the single-shot `_recorded` flag. -/
theorem processEvent_recorded (st : AnthropicState) (e : AnthropicEvent) :
    (processEvent st e).recorded = st.recorded := by
  rcases e with ⟨ty, msg, us⟩
  unfold processEvent
  split
  · rcases msg with _ | ⟨mu⟩
    · rfl
    · rcases mu with _ | u <;> rfl
  · split
    · rcases us with _ | u <;> rfl
    · rfl

/-- Consuming any event prefix never touches the `_recorded` flag. -/
theorem foldl_recorded (events : List AnthropicEvent) (st : AnthropicState) :
    (events.foldl processEvent st).recorded = st.recorded := by
  induction events generalizing st with
  | nil => rfl
  | cons e rest ih => rw [List.foldl_cons, ih, processEvent_recorded]

end TokenSpy

namespace TokenSpy

/-- C1 (amended): the trailing-summary wrapper records from the final chunk
only: exactly one record is produced iff the stream is non-empty and its
final chunk carries non-`None` usage, with token counts taken from that final
chunk; usage carried by non-final chunks is ignored. In particular three
usage-less chunks followed by one carrying `(input=100, output=50)` yield one
record with those values. -/
theorem C1_trailing_summary_final_chunk (price : String → Nat → Nat → ℚ)
    (d t : ℚ) (model : String) (fn : List String) (chunks : List OpenAIChunk)
    (ledger : Ledger) :
    (∀ c u, chunks.getLast? = some c → c.usage = some u →
        openaiConsumeAll price d t model fn chunks ledger
          = ledger ++ [openaiMkRecord price d t model fn u])
    ∧ (∀ c, chunks.getLast? = some c → c.usage = none →
        openaiConsumeAll price d t model fn chunks ledger = ledger)
    ∧ (chunks = [] → openaiConsumeAll price d t model fn chunks ledger = ledger) := by
  refine ⟨?_, ?_, ?_⟩
  · intro c u hlast hu
    simp [openaiConsumeAll, hlast, openaiRecordChunk, hu]
  · intro c hlast hu
    simp [openaiConsumeAll, hlast, openaiRecordChunk, hu]
  · intro h; subst h; rfl

/-- C1 counterexample: a stream whose usage-bearing chunk `(100, 50)` is
followed by one trailing usage-less chunk produces zero records, although the
claim requires one record taken from the last usage-bearing element. -/
theorem C1_counterexample :
    openaiConsumeAll price0 0 0 "gpt-4o" ["f"] cexC1chunks [] = []
    ∧ cexC1chunks.head? = some chunkWithUsage
    ∧ chunkWithUsage.usage = some { prompt_tokens := some 100, completion_tokens := some 50 } :=
  ⟨rfl, rfl, rfl⟩

/-- Witness for C1: the spec's example stream, three usage-less chunks then a
final `(100, 50)` chunk, yields exactly one record with those counts. -/
theorem C1_trailing_summary_final_chunk_witness :
    openaiConsumeAll price0 0 0 "gpt-4o" ["f"]
        [chunkNoUsage, chunkNoUsage, chunkNoUsage, chunkWithUsage] []
      = [openaiMkRecord price0 0 0 "gpt-4o" ["f"]
          { prompt_tokens := some 100, completion_tokens := some 50 }]
    ∧ (openaiMkRecord price0 0 0 "gpt-4o" ["f"]
          { prompt_tokens := some 100, completion_tokens := some 50 }).input_tokens = 100
    ∧ (openaiMkRecord price0 0 0 "gpt-4o" ["f"]
          { prompt_tokens := some 100, completion_tokens := some 50 }).output_tokens = 50 := by
  refine ⟨?_, rfl, rfl⟩
  have := (C1_trailing_summary_final_chunk price0 0 0 "gpt-4o" ["f"]
      [chunkNoUsage, chunkNoUsage, chunkNoUsage, chunkWithUsage] []).1
      chunkWithUsage { prompt_tokens := some 100, completion_tokens := some 50 } rfl rfl
  simpa using this

/-- C2 (amended): an all-usage-less sequence yields zero records through the
trailing-summary (OpenAI) wrapper; but the typed-event (Anthropic) wrapper
always finalizes after full consumption, so a usage-less event sequence
yields exactly one fabricated record with all-zero token counts. -/
theorem C2_no_usage_behaviour (price : String → Nat → Nat → ℚ) (d t : ℚ)
    (model : String) (fn : List String) (ledger : Ledger) :
    (∀ chunks : List OpenAIChunk, (∀ c ∈ chunks, c.usage = none) →
        openaiConsumeAll price d t model fn chunks ledger = ledger)
    ∧ (∀ events : List AnthropicEvent, (∀ e ∈ events, eventUsageFree e = true) →
        (anthropicConsumeAll price d t model fn events ⟨0, 0, false⟩ ledger).2
          = ledger ++ [anthropicMkRecord price d t model fn ⟨0, 0, false⟩])
    ∧ (anthropicMkRecord price d t model fn ⟨0, 0, false⟩).input_tokens = 0
    ∧ (anthropicMkRecord price d t model fn ⟨0, 0, false⟩).output_tokens = 0 := by
  refine ⟨?_, ?_, rfl, rfl⟩
  · intro chunks hall
    cases hlast : chunks.getLast? with
    | none => simp [openaiConsumeAll, hlast]
    | some c =>
      have hc : c ∈ chunks := by
        have hmem : c ∈ chunks.getLast? := Option.mem_def.mpr hlast
        obtain ⟨hne, heq⟩ := List.mem_getLast?_eq_getLast hmem
        rw [heq]
        exact List.getLast_mem hne
      simp [openaiConsumeAll, hlast, openaiRecordChunk, hall c hc]
  · intro events hall
    unfold anthropicConsumeAll
    rw [foldl_usage_free events ⟨0, 0, false⟩ hall]
    rfl

/-- C2 counterexample: fully consuming a two-event Anthropic stream that
never reports usage emits one record (with all-zero usage), not zero. -/
theorem C2_counterexample :
    (∀ e ∈ cexC2events, eventUsageFree e = true)
    ∧ (anthropicConsumeAll price0 0 0 "claude" ["f"] cexC2events
        ⟨0, 0, false⟩ []).2.length = 1 :=
  ⟨by decide, rfl⟩

/-- Witness for C2 (amended) at concrete usage-less streams. -/
theorem C2_no_usage_behaviour_witness :
    openaiConsumeAll price0 0 0 "m" ["f"] [chunkNoUsage] [] = []
    ∧ (anthropicConsumeAll price0 0 0 "m" ["f"] cexC2events ⟨0, 0, false⟩ []).2
        = [anthropicMkRecord price0 0 0 "m" ["f"] ⟨0, 0, false⟩] := by
  constructor
  · exact (C2_no_usage_behaviour price0 0 0 "m" ["f"] []).1 [chunkNoUsage] (by decide)
  · have := (C2_no_usage_behaviour price0 0 0 "m" ["f"] []).2.1 cexC2events (by decide)
    simpa using this

/-- C3 (amended): finalization on early abandonment fires only for the
typed-event (Anthropic) wrapper and only on the scoped-block exit path, where
`__exit__` records one `CallRecord` built from the partial counters; the
trailing-summary (OpenAI) wrapper performs no finalization when iteration is
abandoned early — its `__exit__` only closes the underlying stream — so the
partially accumulated cost is silently dropped. -/
theorem C3_early_abandonment (price : String → Nat → Nat → ℚ) (d t : ℚ)
    (model : String) (fn : List String) (events : List AnthropicEvent)
    (chunks : List OpenAIChunk) (k : Nat) (ledger : Ledger) :
    ((anthropicExit price d t model fn
        (anthropicIterPartial events k ⟨0, 0, false⟩ ledger).1 ledger).2
      = ledger ++ [anthropicMkRecord price d t model fn
          ((events.take k).foldl processEvent ⟨0, 0, false⟩)])
    ∧ (k < chunks.length →
        openaiExit (openaiConsume price d t model fn chunks k ledger) = ledger) := by
  constructor
  · have hr : ((events.take k).foldl processEvent
        (⟨0, 0, false⟩ : AnthropicState)).recorded = false := foldl_recorded _ _
    unfold anthropicExit anthropicIterPartial anthropicFinalize
    simp [hr]
  · intro hk
    show openaiConsume price d t model fn chunks k ledger = ledger
    unfold openaiConsume
    rw [if_neg (by omega)]

/-- C3 counterexample: an OpenAI stream whose first chunk carries usage,
abandoned after one element and closed via the scoped-acquisition exit,
leaves the ledger empty: no record is issued on that exit path. -/
theorem C3_counterexample :
    openaiExit (openaiConsume price0 0 0 "m" ["f"] cexC3chunks 1 []) = []
    ∧ 1 < cexC3chunks.length
    ∧ cexC3chunks.head? = some chunkWithUsage :=
  ⟨rfl, by decide, rfl⟩

/-- Witness for C3 (amended): the Anthropic scoped exit after one event
records the partial counters; the OpenAI abandonment path records nothing. -/
theorem C3_early_abandonment_witness :
    (anthropicExit price0 0 0 "m" ["f"]
        (anthropicIterPartial [evStart200] 1 ⟨0, 0, false⟩ []).1 []).2
      = [anthropicMkRecord price0 0 0 "m" ["f"]
          (([evStart200].take 1).foldl processEvent ⟨0, 0, false⟩)]
    ∧ openaiExit (openaiConsume price0 0 0 "m" ["f"] cexC3chunks 1 []) = [] := by
  constructor
  · have := (C3_early_abandonment price0 0 0 "m" ["f"] [evStart200] cexC3chunks 1 []).1
    simpa using this
  · exact (C3_early_abandonment price0 0 0 "m" ["f"] [evStart200] cexC3chunks 1 []).2
      (by decide)

end TokenSpy

namespace TokenSpy

/-- A stored row reconstructs to exactly the record it was saved from. -/
theorem parse_save (rec : CallRecord) : parseRow (saveRow rec) = some rec :=
  rfl

/-- A corrupted row fails reconstruction. -/
theorem parse_corrupt (rec : CallRecord) : parseRow (corruptRow rec) = none :=
  rfl

/-- Reconstructing a block of intact stored rows yields the original records. -/
theorem filterMap_parse_save (l : List CallRecord) :
    (l.map saveRow).filterMap parseRow = l := by
  induction l with
  | nil => rfl
  | cons a l ih => simp [List.filterMap_cons, parse_save, ih]

/-- Variant of the round-trip reconstruction lemma in composed form. -/
theorem filterMap_parse_save_comp (l : List CallRecord) :
    l.filterMap (parseRow ∘ saveRow) = l := by
  induction l with
  | nil => rfl
  | cons a l ih => simp [List.filterMap_cons, Function.comp, parse_save, ih]

/-- Inserting a row whose timestamp precedes every element puts it in front. -/
theorem insertRow_front (r : DbRow) (l : List DbRow)
    (h : ∀ x ∈ l, r.timestamp < x.timestamp) : insertRow r l = r :: l := by
  cases l with
  | nil => rfl
  | cons x xs =>
    unfold insertRow
    rw [if_neg]
    exact not_le.mpr (h x (by simp))

/-- Sorting rows already in strictly ascending timestamp order is a no-op. -/
theorem sortRows_sorted_id (l : List DbRow)
    (h : List.Pairwise (fun a b => a.timestamp < b.timestamp) l) :
    sortRows l = l := by
  induction l with
  | nil => rfl
  | cons a xs ih =>
    rw [List.pairwise_cons] at h
    unfold sortRows
    rw [ih h.2, insertRow_front a xs h.1]

end TokenSpy

namespace TokenSpy

/-- C9: saving records with strictly ascending timestamps to the durable log
and loading them back yields the original records (model, provider, token
counts and cost included) in ascending timestamp order; a single corrupt row
is skipped during loading, leaving the records of all other rows intact. -/
theorem C9_durable_log_roundtrip (recs pre post : List CallRecord)
    (r : CallRecord) :
    (List.Pairwise (fun a b : DbRow => a.timestamp < b.timestamp)
        (recs.map saveRow) →
      loadFromDb (recs.map saveRow) = recs)
    ∧ (List.Pairwise (fun a b : DbRow => a.timestamp < b.timestamp)
        (pre.map saveRow ++ corruptRow r :: post.map saveRow) →
      loadFromDb (pre.map saveRow ++ corruptRow r :: post.map saveRow)
        = pre ++ post) := by
  constructor
  · intro h
    unfold loadFromDb
    rw [sortRows_sorted_id _ h, filterMap_parse_save]
  · intro h
    unfold loadFromDb
    rw [sortRows_sorted_id _ h, List.filterMap_append, filterMap_parse_save]
    have hmid : List.filterMap parseRow (corruptRow r :: post.map saveRow)
        = post := by
      simp [List.filterMap_cons, parse_corrupt, filterMap_parse_save,
        filterMap_parse_save_comp]
    rw [hmid]

/-- Witness for C9: a two-record round trip, and a three-row load in which
the middle row is corrupt and only it is dropped. -/
theorem C9_durable_log_roundtrip_witness :
    loadFromDb ([recT 1, recT 2].map saveRow) = [recT 1, recT 2]
    ∧ loadFromDb ([recT 1].map saveRow ++ corruptRow (recT 2)
        :: [recT 3].map saveRow) = [recT 1] ++ [recT 3] :=
  ⟨(C9_durable_log_roundtrip [recT 1, recT 2] [recT 1] [recT 3] (recT 2)).1
      (by decide),
   (C9_durable_log_roundtrip [recT 1, recT 2] [recT 1] [recT 3] (recT 2)).2
      (by decide)⟩

end TokenSpy
